import Mathlib

/-!
Shallow embedding of the repository script `.github/scripts/validate-commit.py`,
a conventional-commit message validator.  Python strings are modelled as
`List Char` (sequences of code points).  The script only uses the ASCII
behaviour of `strip`, `lower`, `isalnum`, `isupper` and of the regex classes
for word characters and digits, so those are modelled on their ASCII fragment.
-/

/-- ASCII whitespace stripped by the Python string strip method. -/
def isPySpace (c : Char) : Bool :=
  c == ' ' || c == '\t' || c == '\n' || c == '\r' || c == Char.ofNat 11 || c == Char.ofNat 12

/-- Python string strip: remove leading and trailing whitespace. -/
def pyStrip (s : List Char) : List Char :=
  ((s.dropWhile isPySpace).reverse.dropWhile isPySpace).reverse

/-- Python split on the newline character. -/
def splitOnNl : List Char → List (List Char)
  | [] => [[]]
  | c :: rest =>
    if c == '\n' then [] :: splitOnNl rest
    else
      match splitOnNl rest with
      | [] => [[c]]
      | l :: ls => (c :: l) :: ls

/-- Line filter of validate-commit.py line 57: keep a line when its stripped
form is nonempty and does not start with the hash character. -/
def lineKept (line : List Char) : Bool :=
  match pyStrip line with
  | [] => false
  | c :: _ => !(c == '#')

/-- ASCII fragment of the regex class of word characters. -/
def isWordChar (c : Char) : Bool := c.isAlphanum || c == '_'

/-- Matching of COMMIT_PATTERN (validate-commit.py lines 38-40) against a
newline-free subject line, returning the groups type, scope, description
(an absent scope group is collapsed to the empty list as on line 78).
The regex is anchored at the start, the type group is a nonempty greedy run
of word characters, the optional scope group is a parenthesised nonempty run
of characters other than the closing parenthesis, then a colon, a space and
a nonempty description.  Because the character after the type group must be
an opening parenthesis or a colon, neither of which is a word character,
backtracking cannot produce any other decomposition, so this function is the
exact match semantics. -/
def matchCommitPattern (s : List Char) : Option (List Char × List Char × List Char) :=
  let ty := s.takeWhile isWordChar
  if ty.isEmpty then none
  else
    match s.dropWhile isWordChar with
    | '(' :: r2 =>
      let scope := r2.takeWhile (fun c => !(c == ')'))
      match r2.dropWhile (fun c => !(c == ')')) with
      | ')' :: ':' :: ' ' :: desc =>
        if scope.isEmpty then none
        else if desc.isEmpty then none else some (ty, scope, desc)
      | _ => none
    | ':' :: ' ' :: desc => if desc.isEmpty then none else some (ty, [], desc)
    | _ => none

/-- Regex search for JIRA_PATTERN, the literal S3CSI- followed by a digit run:
true when some suffix starts with that shape. -/
def searchJira : List Char → Bool
  | [] => false
  | c :: rest =>
    (c == 'S' && (match rest with
      | '3' :: 'C' :: 'S' :: 'I' :: '-' :: d :: _ => d.isDigit
      | _ => false)) || searchJira rest

/-- Regex search for GITHUB_ISSUE_PATTERN, a hash immediately followed by a
digit run: true when some character is a hash followed by a digit. -/
def searchGithubRef : List Char → Bool
  | [] => false
  | c :: rest =>
    (c == '#' && (match rest with
      | d :: _ => d.isDigit
      | [] => false)) || searchGithubRef rest

/-- Anchored regex match of validate-commit.py line 117: the scope is exactly
S3CSI- followed by a nonempty digit run. -/
def fullmatchJira (s : List Char) : Bool :=
  match s with
  | 'S' :: '3' :: 'C' :: 'S' :: 'I' :: '-' :: ds => !ds.isEmpty && ds.all Char.isDigit
  | _ => false

/-- Python string lower, ASCII fragment. -/
def pyToLower (s : List Char) : List Char := s.map Char.toLower

/-- validate-commit.py line 123: drop dashes and underscores from the scope,
then the Python isalnum test (nonempty and all alphanumeric). -/
def scopeLooksAlnum (s : List Char) : Bool :=
  let cleaned := s.filter (fun c => !(c == '-') && !(c == '_'))
  !cleaned.isEmpty && cleaned.all Char.isAlphanum

/-- USER_FACING_TYPES of validate-commit.py line 25. -/
def USER_FACING_TYPES : List (List Char) :=
  ["feat".data, "fix".data, "perf".data, "security".data, "breaking".data]

/-- DEVELOPMENT_TYPES of validate-commit.py line 28. -/
def DEVELOPMENT_TYPES : List (List Char) :=
  ["docs".data, "test".data, "ci".data, "chore".data, "refactor".data,
   "style".data, "build".data, "revert".data]

/-- ALL_TYPES of validate-commit.py line 31, the union of the two sets. -/
def ALL_TYPES : List (List Char) := USER_FACING_TYPES ++ DEVELOPMENT_TYPES

/-- The apostrophe character, used inside several message texts. -/
def apos : Char := Char.ofNat 39

/-- Error text of validate-commit.py line 59. -/
def emptyMessageError : List Char :=
  "Commit message cannot be empty (ignoring template comments)".data

/-- Error text of validate-commit.py lines 67-74. -/
def invalidFormatError (subject_line : List Char) : List Char :=
  "Invalid commit format. Expected: type(scope): description\nGot: ".data ++
    subject_line ++
    "\nExamples:\n  feat(S3CSI-123): add custom S3 endpoint support\n  fix(S3CSI-456): resolve authentication timeout issue\n  docs: update installation guide".data

/-- Error text of validate-commit.py lines 83-86, with the sorted joined
type names written out. -/
def invalidTypeError (commit_type : List Char) : List Char :=
  "Invalid commit type ".data ++ [apos] ++ commit_type ++ [apos] ++
    ". Valid types: breaking, build, chore, ci, docs, feat, fix, perf, refactor, revert, security, style, test".data

/-- Error text of validate-commit.py line 91. -/
def shortDescriptionError : List Char :=
  "Description must be at least 10 characters long".data

/-- Warning text of validate-commit.py line 94. -/
def longDescriptionWarning : List Char :=
  "Description should be 72 characters or less for better readability".data

/-- Error text of validate-commit.py lines 112-116. -/
def issueIdRequiredError (commit_type : List Char) : List Char :=
  "User-facing commit type ".data ++ [apos] ++ commit_type ++ [apos] ++
    " requires an issue ID.\nInclude issue ID in scope: ".data ++ commit_type ++
    "(S3CSI-123): description\nOr reference GitHub issue in footer: Closes #123".data

/-- Error text of validate-commit.py lines 118-119. -/
def invalidJiraFormatError (scope : List Char) : List Char :=
  "Invalid JIRA issue format in scope. Expected: S3CSI-123, got: ".data ++ scope

/-- Warning text of validate-commit.py lines 124-125. -/
def scopeWarning (scope : List Char) : List Char :=
  "Scope ".data ++ [apos] ++ scope ++ [apos] ++ " doesn".data ++ [apos] ++
    "t look like an issue ID or component name".data

/-- Warning text of validate-commit.py lines 132-134. -/
def upperWarning : List Char :=
  "Description should start with lowercase letter (imperative mood). E.g., ".data ++
    [apos] ++ "add feature".data ++ [apos] ++ " not ".data ++ [apos] ++ "Add feature".data ++ [apos]

/-- Warning text of validate-commit.py line 139. -/
def periodWarning : List Char :=
  "Description should not end with a period".data

/-- Warning text of validate-commit.py lines 143-144. -/
def imperativeWarning : List Char :=
  "Use imperative mood: ".data ++ [apos] ++ "add".data ++ [apos] ++ " not ".data ++
    [apos] ++ "added".data ++ [apos] ++ ", ".data ++ [apos] ++ "fix".data ++ [apos] ++
    " not ".data ++ [apos] ++ "fixed".data ++ [apos]

/-- The triple returned by validate_commit_message (line 46): validity flag,
error list, warning list. -/
structure ValidationResult where
  valid : Bool
  errors : List (List Char)
  warnings : List (List Char)
  deriving DecidableEq

/-- Embedding of _validate_issue_id (validate-commit.py lines 104-126),
threading the accumulated error and warning lists explicitly. -/
def validate_issue_id (commit_type scope full_message : List Char)
    (errors warnings : List (List Char)) : List (List Char) × List (List Char) :=
  let has_jira_id := if scope.isEmpty then false else searchJira scope
  let has_github_issue := searchGithubRef full_message
  let has_issue_id := has_jira_id || has_github_issue
  if USER_FACING_TYPES.contains commit_type then
    if !has_issue_id then
      (errors ++ [issueIdRequiredError commit_type], warnings)
    else if has_jira_id && !(fullmatchJira scope) then
      (errors ++ [invalidJiraFormatError scope], warnings)
    else (errors, warnings)
  else if DEVELOPMENT_TYPES.contains commit_type then
    if !scope.isEmpty && !(has_jira_id || scopeLooksAlnum scope) then
      (errors, warnings ++ [scopeWarning scope])
    else (errors, warnings)
  else (errors, warnings)

/-- Embedding of _validate_description_style (validate-commit.py
lines 128-145), threading the accumulated warning list. -/
def validate_description_style (description : List Char)
    (warnings : List (List Char)) : List (List Char) :=
  let w1 :=
    if (match description with | [] => false | c :: _ => c.isUpper) then
      warnings ++ [upperWarning]
    else warnings
  let w2 := if description.getLast? == some '.' then w1 ++ [periodWarning] else w1
  if ["added".data, "fixed".data, "updated".data, "changed".data].any
      (fun word => word.isPrefixOf (pyToLower description)) then
    w2 ++ [imperativeWarning]
  else w2

/-- The part of validate_commit_message from line 64 on, once the subject
line has been selected; the raw message is still needed for the full-message
issue search of line 97. -/
def validateSubject (subject_line message : List Char) : ValidationResult :=
  match matchCommitPattern subject_line with
  | none => ⟨false, [invalidFormatError subject_line], []⟩
  | some (ty, scope, description) =>
    let commit_type := pyToLower ty
    if !(ALL_TYPES.contains commit_type) then
      ⟨false, [invalidTypeError commit_type], []⟩
    else
      let errors0 := if description.length < 10 then [shortDescriptionError] else []
      let warnings0 := if description.length > 72 then [longDescriptionWarning] else []
      let ew := validate_issue_id commit_type scope message errors0 warnings0
      let warnings1 := validate_description_style description ew.snd
      ⟨ew.fst.isEmpty, ew.fst, warnings1⟩

/-- Line 57 of validate-commit.py: strip the message, split it into lines,
keep the non-blank non-comment lines. -/
def keptLines (message : List Char) : List (List Char) :=
  (splitOnNl (pyStrip message)).filter lineKept

/-- Embedding of validate_commit_message (validate-commit.py lines 46-102). -/
def validate_commit_message (message : List Char) : ValidationResult :=
  match keptLines message with
  | [] => ⟨false, [emptyMessageError], []⟩
  | subject_line :: _ => validateSubject subject_line message

/-- The first non-blank non-comment line of the stripped message, when any. -/
def firstKept (message : List Char) : Option (List Char) := (keptLines message).head?

/-- The mutable instance state of the CommitValidator class: the errors and
warnings lists set in __init__ and rewritten by each validation call. -/
structure CommitValidator where
  errors : List (List Char)
  warnings : List (List Char)
  deriving DecidableEq

/-- Calling the validate_commit_message method on an instance: lines 53-54
reset the instance lists before anything else runs, so the prior instance
state is discarded; the final instance state carries the lists of the
returned result. -/
def validateOn (v : CommitValidator) (message : List Char) :
    CommitValidator × ValidationResult :=
  let r := validate_commit_message message
  (⟨r.errors, r.warnings⟩, r)

/-- Exit code computation of main (validate-commit.py lines 196-206) once a
message has been obtained and the validator has run. -/
def mainExitCode (strict : Bool) (message : List Char) : Nat :=
  let r := validate_commit_message message
  if !r.valid || (strict && !r.warnings.isEmpty) then 1 else 0

/-- True when a list is empty or starts with a non-word character, so that
the anchored type group of COMMIT_PATTERN cannot match at its start. -/
def headNotWord : List Char → Bool
  | [] => true
  | c :: _ => !isWordChar c

/-! Helper lemmas about the embedded definitions. -/

lemma jira_guard_eq (s : List Char) :
    (if s.isEmpty then false else searchJira s) = searchJira s := by
  cases s <;> rfl

lemma contains_user_all (a : List Char) (h : USER_FACING_TYPES.contains a = true) :
    ALL_TYPES.contains a = true := by
  unfold ALL_TYPES at *
  simp only [List.contains, List.elem_eq_mem, decide_eq_true_eq, List.mem_append] at *
  exact Or.inl h

lemma contains_dev_all (a : List Char) (h : DEVELOPMENT_TYPES.contains a = true) :
    ALL_TYPES.contains a = true := by
  unfold ALL_TYPES at *
  simp only [List.contains, List.elem_eq_mem, decide_eq_true_eq, List.mem_append] at *
  exact Or.inr h

lemma dev_not_user (a : List Char) (h : DEVELOPMENT_TYPES.contains a = true) :
    USER_FACING_TYPES.contains a = false := by
  simp only [DEVELOPMENT_TYPES, List.contains, List.elem_eq_mem, decide_eq_true_eq,
    List.mem_cons, List.not_mem_nil, or_false] at h
  rcases h with h | h | h | h | h | h | h | h <;> subst h <;> decide

lemma validate_eq_subject (m subj : List Char) (h : firstKept m = some subj) :
    validate_commit_message m = validateSubject subj m := by
  unfold validate_commit_message
  unfold firstKept at h
  cases hk : keptLines m with
  | nil => rw [hk] at h; simp at h
  | cons a t =>
    rw [hk] at h
    simp only [List.head?_cons, Option.some.injEq] at h
    rw [h]

lemma validate_format_fail (m subj : List Char) (h1 : firstKept m = some subj)
    (h2 : matchCommitPattern subj = none) :
    validate_commit_message m = ⟨false, [invalidFormatError subj], []⟩ := by
  rw [validate_eq_subject m subj h1]
  unfold validateSubject
  rw [h2]

lemma searchJira_ne_nil (s : List Char) (h : searchJira s = true) : s ≠ [] := by
  intro hh
  rw [hh] at h
  exact absurd h (by decide)

lemma issue_id_user_missing (ct s m : List Char) (e w : List (List Char))
    (h1 : USER_FACING_TYPES.contains ct = true)
    (h2 : searchJira s = false) (h3 : searchGithubRef m = false) :
    validate_issue_id ct s m e w = (e ++ [issueIdRequiredError ct], w) := by
  simp only [validate_issue_id, jira_guard_eq, h1, h2, h3]
  simp

lemma issue_id_user_malformed (ct s m : List Char) (e w : List (List Char))
    (h1 : USER_FACING_TYPES.contains ct = true)
    (h2 : searchJira s = true) (h3 : fullmatchJira s = false) :
    validate_issue_id ct s m e w = (e ++ [invalidJiraFormatError s], w) := by
  simp only [validate_issue_id, jira_guard_eq, h1, h2, h3]
  simp [searchJira_ne_nil s h2]

lemma issue_id_dev_fst (ct s m : List Char) (e w : List (List Char))
    (h1 : DEVELOPMENT_TYPES.contains ct = true) :
    (validate_issue_id ct s m e w).fst = e := by
  simp only [validate_issue_id, dev_not_user ct h1, h1]
  simp only [Bool.false_eq_true, if_false, if_true]
  split <;> split <;> rfl

lemma issue_id_congr (ct s m1 m2 : List Char) (e w : List (List Char))
    (h : searchGithubRef m1 = searchGithubRef m2) :
    validate_issue_id ct s m1 e w = validate_issue_id ct s m2 e w := by
  unfold validate_issue_id
  rw [h]

lemma validateSubject_congr (subj m1 m2 : List Char)
    (h : searchGithubRef m1 = searchGithubRef m2) :
    validateSubject subj m1 = validateSubject subj m2 := by
  unfold validateSubject
  cases hm : matchCommitPattern subj with
  | none => rfl
  | some tsd =>
    obtain ⟨ty, scope, desc⟩ := tsd
    dsimp only
    rw [issue_id_congr (pyToLower ty) scope m1 m2
      (if desc.length < 10 then [shortDescriptionError] else [])
      (if desc.length > 72 then [longDescriptionWarning] else []) h]

/-! Claim theorems. -/

/-- C2: for every message, the valid flag of the returned result is true
exactly when the errors list is empty; in particular the warnings list never
influences the flag. -/
theorem c2_valid_iff_errors_empty (m : List Char) :
    (validate_commit_message m).valid = true ↔ (validate_commit_message m).errors = [] := by
  unfold validate_commit_message
  cases hk : keptLines m with
  | nil => simp
  | cons subj rest =>
    unfold validateSubject
    dsimp only
    cases hm : matchCommitPattern subj with
    | none => simp
    | some tsd =>
      obtain ⟨ty, scope, desc⟩ := tsd
      dsimp only
      split
      · simp
      · simp [List.isEmpty_iff]

/-- C5: once the validator has run, the process exit status is 1 exactly when
the result is invalid or the strict flag was supplied and warnings are
nonempty, and 0 in every other case. -/
theorem c5_exit_code (strict : Bool) (m : List Char) :
    (mainExitCode strict m = 1 ↔
      ((validate_commit_message m).valid = false ∨
        (strict = true ∧ (validate_commit_message m).warnings ≠ []))) ∧
    (mainExitCode strict m = 0 ↔
      ¬((validate_commit_message m).valid = false ∨
        (strict = true ∧ (validate_commit_message m).warnings ≠ []))) := by
  simp only [mainExitCode]
  cases hv : (validate_commit_message m).valid <;> cases strict <;>
    cases hw : (validate_commit_message m).warnings <;> simp [hv, hw]

/-- C9: validation is a pure function of the message: it gives the same
result on any two validator instances, whatever their prior state, and
running it twice in sequence on the same instance repeats the result. -/
theorem c9_pure_idempotent (v w : CommitValidator) (m : List Char) :
    (validateOn (validateOn v m).fst m).snd = (validateOn v m).snd ∧
    (validateOn w m).snd = (validateOn v m).snd :=
  ⟨rfl, rfl⟩

/-- C3 counterexample: inserting the comment line containing a hash-digit
reference into a user-facing message flips the result from invalid to valid,
so comment lines are not ignored entirely. -/
theorem c3_counterexample :
    lineKept "#123 tracked".data = false ∧
    (validate_commit_message "feat: add custom endpoint".data).valid = false ∧
    (validate_commit_message
      ("feat: add custom endpoint".data ++ '\n' :: "#123 tracked".data)).valid = true := by
  decide

/-- C3 amended: validation depends only on the first kept (non-blank,
non-comment) line of the stripped message together with the presence of a
hash-digit reference anywhere in the raw text, so inserting or removing
blank or comment lines that neither change the first kept line nor carry a
hash-digit reference never changes the result; and a message whose lines are
all blank or comments is invalid with exactly the empty-message error. -/
theorem c3_comment_blank_lines (m1 m2 m3 : List Char) :
    (firstKept m1 = firstKept m2 → searchGithubRef m1 = searchGithubRef m2 →
      validate_commit_message m1 = validate_commit_message m2) ∧
    ((splitOnNl (pyStrip m3)).all (fun l => !(lineKept l)) = true →
      validate_commit_message m3 = ⟨false, [emptyMessageError], []⟩) := by
  constructor
  · intro h1 h2
    unfold validate_commit_message
    unfold firstKept at h1
    cases hk1 : keptLines m1 with
    | nil =>
      cases hk2 : keptLines m2 with
      | nil => rfl
      | cons b t2 => rw [hk1, hk2] at h1; simp at h1
    | cons a t1 =>
      cases hk2 : keptLines m2 with
      | nil => rw [hk1, hk2] at h1; simp at h1
      | cons b t2 =>
        rw [hk1, hk2] at h1
        simp only [List.head?_cons, Option.some.injEq] at h1
        rw [h1]
        exact validateSubject_congr b m1 m2 h2
  · intro h3
    have hk : keptLines m3 = [] := by
      unfold keptLines
      rw [List.filter_eq_nil_iff]
      intro a ha
      have hna := List.all_eq_true.mp h3 a ha
      simp only [Bool.not_eq_true'] at hna
      simp [hna]
    unfold validate_commit_message
    rw [hk]

/-- C3 witness: a concrete message is validated identically with and without
surrounding blank and plain comment lines, and a message of only comments
and blanks gets exactly the empty-message error. -/
theorem c3_witness :
    validate_commit_message "fix(S3CSI-1): resolve timeout issue".data =
      validate_commit_message "# note\nfix(S3CSI-1): resolve timeout issue\n\n# end".data ∧
    validate_commit_message "# a\n\n   \n# b".data = ⟨false, [emptyMessageError], []⟩ :=
  ⟨(c3_comment_blank_lines "fix(S3CSI-1): resolve timeout issue".data
      "# note\nfix(S3CSI-1): resolve timeout issue\n\n# end".data
      "# a\n\n   \n# b".data).1 (by decide) (by decide),
    (c3_comment_blank_lines "fix(S3CSI-1): resolve timeout issue".data
      "# note\nfix(S3CSI-1): resolve timeout issue\n\n# end".data
      "# a\n\n   \n# b".data).2 (by decide)⟩

/-- C1: a message whose subject parses with a user-facing type (after
lower-casing), whose scope contains no JIRA-style identifier and whose full
raw text contains no hash-digit reference, is invalid and its errors contain
the issue-id error naming the type and showing the two accepted forms. -/
theorem c1_user_facing_requires_issue_id
    (m subj ty scope desc : List Char)
    (hfk : firstKept m = some subj)
    (hm : matchCommitPattern subj = some (ty, scope, desc))
    (huser : USER_FACING_TYPES.contains (pyToLower ty) = true)
    (hjira : searchJira scope = false)
    (hgh : searchGithubRef m = false) :
    (validate_commit_message m).valid = false ∧
      issueIdRequiredError (pyToLower ty) ∈ (validate_commit_message m).errors := by
  rw [validate_eq_subject m subj hfk]
  unfold validateSubject
  rw [hm]
  dsimp only
  have hAll : ALL_TYPES.contains (pyToLower ty) = true := contains_user_all _ huser
  simp only [hAll, Bool.not_true, Bool.false_eq_true, if_false]
  rw [issue_id_user_missing (pyToLower ty) scope m _ _ huser hjira hgh]
  constructor
  · simp
  · simp

/-- C1 witness: the feat message without any issue reference is rejected
with the issue-id error. -/
theorem c1_witness :
    (validate_commit_message "feat: add custom endpoint support".data).valid = false ∧
      issueIdRequiredError (pyToLower "feat".data) ∈
        (validate_commit_message "feat: add custom endpoint support".data).errors :=
  c1_user_facing_requires_issue_id "feat: add custom endpoint support".data
    "feat: add custom endpoint support".data "feat".data [] "add custom endpoint support".data
    (by decide) (by decide) (by decide) (by decide) (by decide)

/-- C4: when the first kept line fails the commit grammar, the result is
exactly invalid with the single format error and no warnings, and that error
text contains the offending subject line and a canonical example. -/
theorem c4_format_error_only
    (m subj : List Char)
    (hfk : firstKept m = some subj)
    (hm : matchCommitPattern subj = none) :
    validate_commit_message m = ⟨false, [invalidFormatError subj], []⟩ ∧
      List.IsInfix subj (invalidFormatError subj) ∧
      List.IsInfix "feat(S3CSI-123): add custom S3 endpoint support".data
        (invalidFormatError subj) := by
  refine ⟨validate_format_fail m subj hfk hm, ?_, ?_⟩
  · exact ⟨"Invalid commit format. Expected: type(scope): description\nGot: ".data,
      "\nExamples:\n  feat(S3CSI-123): add custom S3 endpoint support\n  fix(S3CSI-456): resolve authentication timeout issue\n  docs: update installation guide".data,
      by simp [invalidFormatError]⟩
  · refine ⟨"Invalid commit format. Expected: type(scope): description\nGot: ".data ++ subj ++
        "\nExamples:\n  ".data,
      "\n  fix(S3CSI-456): resolve authentication timeout issue\n  docs: update installation guide".data,
      ?_⟩
    simp only [invalidFormatError, List.append_assoc]
    refine congrArg _ (congrArg _ ?_)
    decide

/-- C4 witness: a free-form subject line yields exactly the format error. -/
theorem c4_witness :
    validate_commit_message "this is not conventional".data =
      ⟨false, [invalidFormatError "this is not conventional".data], []⟩ ∧
      List.IsInfix "this is not conventional".data
        (invalidFormatError "this is not conventional".data) ∧
      List.IsInfix "feat(S3CSI-123): add custom S3 endpoint support".data
        (invalidFormatError "this is not conventional".data) :=
  c4_format_error_only "this is not conventional".data "this is not conventional".data
    (by decide) (by decide)

lemma issueIdRequiredError_head (t : List Char) :
    (issueIdRequiredError t).head? = some 'U' := rfl

lemma issueIdRequiredError_ne_short (t : List Char) :
    issueIdRequiredError t ≠ shortDescriptionError := by
  intro h
  have hh := congrArg List.head? h
  rw [issueIdRequiredError_head] at hh
  exact absurd hh (by decide)

lemma issueIdRequiredError_ne_jira (t s : List Char) :
    issueIdRequiredError t ≠ invalidJiraFormatError s := by
  intro h
  have hh := congrArg List.head? h
  rw [issueIdRequiredError_head] at hh
  have hI : (invalidJiraFormatError s).head? = some 'I' := rfl
  rw [hI] at hh
  exact absurd hh (by decide)

/-- C6: a user-facing message whose scope contains a JIRA-style substring
without the whole scope being exactly that pattern gets the distinct
malformed-scope error citing the scope, and not the missing-issue-id
error. -/
theorem c6_malformed_scope_error
    (m subj ty scope desc : List Char)
    (hfk : firstKept m = some subj)
    (hm : matchCommitPattern subj = some (ty, scope, desc))
    (huser : USER_FACING_TYPES.contains (pyToLower ty) = true)
    (hjira : searchJira scope = true)
    (hnf : fullmatchJira scope = false) :
    invalidJiraFormatError scope ∈ (validate_commit_message m).errors ∧
      issueIdRequiredError (pyToLower ty) ∉ (validate_commit_message m).errors ∧
      (validate_commit_message m).valid = false := by
  rw [validate_eq_subject m subj hfk]
  unfold validateSubject
  rw [hm]
  dsimp only
  have hAll : ALL_TYPES.contains (pyToLower ty) = true := contains_user_all _ huser
  simp only [hAll, Bool.not_true, Bool.false_eq_true, if_false]
  rw [issue_id_user_malformed (pyToLower ty) scope m _ _ huser hjira hnf]
  refine ⟨by simp, ?_, by simp⟩
  simp only [List.mem_append, List.mem_singleton, not_or]
  constructor
  · intro hin
    split at hin
    · rw [List.mem_singleton] at hin
      exact issueIdRequiredError_ne_short (pyToLower ty) hin
    · exact List.not_mem_nil _ hin
  · exact issueIdRequiredError_ne_jira (pyToLower ty) scope

/-- C6 witness: a fix commit with scope SS3CSI-12 gets the malformed-scope
error and not the missing-issue-id error. -/
theorem c6_witness :
    invalidJiraFormatError "SS3CSI-12".data ∈
      (validate_commit_message "fix(SS3CSI-12): resolve timeout issue".data).errors ∧
    issueIdRequiredError (pyToLower "fix".data) ∉
      (validate_commit_message "fix(SS3CSI-12): resolve timeout issue".data).errors ∧
    (validate_commit_message "fix(SS3CSI-12): resolve timeout issue".data).valid = false :=
  c6_malformed_scope_error "fix(SS3CSI-12): resolve timeout issue".data
    "fix(SS3CSI-12): resolve timeout issue".data "fix".data "SS3CSI-12".data
    "resolve timeout issue".data (by decide) (by decide) (by decide) (by decide) (by decide)

set_option maxRecDepth 4000 in
/-- C7 counterexample: a subject line of the form scope-then-description with
no leading type token fails the grammar and produces the format error, so the
type token is not optional. -/
theorem c7_counterexample :
    matchCommitPattern "(S3CSI-123): add custom endpoint".data = none ∧
    validate_commit_message "(S3CSI-123): add custom endpoint".data =
      ⟨false, [invalidFormatError "(S3CSI-123): add custom endpoint".data], []⟩ := by
  decide

/-- C7 amended: the leading type token of the grammar is mandatory, a
nonempty run of word characters; any subject line that is empty or starts
with a non-word character fails the grammar and yields the format error. -/
theorem c7_type_token_required (m subj : List Char)
    (hfk : firstKept m = some subj)
    (hnw : headNotWord subj = true) :
    matchCommitPattern subj = none ∧
    validate_commit_message m = ⟨false, [invalidFormatError subj], []⟩ := by
  have hmn : matchCommitPattern subj = none := by
    cases subj with
    | nil => rfl
    | cons c cs =>
      unfold headNotWord at hnw
      simp only [Bool.not_eq_true'] at hnw
      simp [matchCommitPattern, List.takeWhile_cons, hnw]
  exact ⟨hmn, validate_format_fail m subj hfk hmn⟩

/-- C7 witness: a subject starting with an opening parenthesis gets the
format error. -/
theorem c7_witness :
    matchCommitPattern "(api): add custom endpoint".data = none ∧
    validate_commit_message "(api): add custom endpoint".data =
      ⟨false, [invalidFormatError "(api): add custom endpoint".data], []⟩ :=
  c7_type_token_required "(api): add custom endpoint".data "(api): add custom endpoint".data
    (by decide) (by decide)

lemma validate_dev_valid (m subj ty s d : List Char)
    (hfk : firstKept m = some subj)
    (hm : matchCommitPattern subj = some (ty, s, d))
    (hdev : DEVELOPMENT_TYPES.contains (pyToLower ty) = true) :
    (validate_commit_message m).valid =
      (if d.length < 10 then [shortDescriptionError] else ([] : List (List Char))).isEmpty := by
  rw [validate_eq_subject m subj hfk]
  unfold validateSubject
  rw [hm]
  dsimp only
  have hAll : ALL_TYPES.contains (pyToLower ty) = true := contains_dev_all _ hdev
  simp only [hAll, Bool.not_true, Bool.false_eq_true, if_false]
  rw [issue_id_dev_fst (pyToLower ty) s m _ _ hdev]

/-- C8 counterexample: two development-type messages differing only in the
presence of the GitHub-style reference placed inside the description have
different validity, because the reference text counts toward the ten
character description minimum. -/
theorem c8_counterexample :
    (validate_commit_message ("test: ab ".data ++ "#1234567".data)).valid = true ∧
    (validate_commit_message "test: ab ".data).valid = false := by
  decide

/-- C8 amended: for development-type messages the issue-id check adds no
errors, so validity is a function of the description alone: any two parsed
development-type messages with the same description (in particular, messages
differing only by a JIRA scope or a reference outside the description) have
the same valid flag. -/
theorem c8_dev_validity_from_description
    (m1 m2 subj1 subj2 ty1 ty2 s1 s2 d : List Char)
    (hfk1 : firstKept m1 = some subj1) (hfk2 : firstKept m2 = some subj2)
    (hm1 : matchCommitPattern subj1 = some (ty1, s1, d))
    (hm2 : matchCommitPattern subj2 = some (ty2, s2, d))
    (hdev1 : DEVELOPMENT_TYPES.contains (pyToLower ty1) = true)
    (hdev2 : DEVELOPMENT_TYPES.contains (pyToLower ty2) = true) :
    (validate_commit_message m1).valid = (validate_commit_message m2).valid := by
  rw [validate_dev_valid m1 subj1 ty1 s1 d hfk1 hm1 hdev1,
    validate_dev_valid m2 subj2 ty2 s2 d hfk2 hm2 hdev2]

/-- C8 witness: a docs message with and without a JIRA scope has the same
validity. -/
theorem c8_witness :
    (validate_commit_message "docs(S3CSI-123): update installation guide".data).valid =
      (validate_commit_message "docs: update installation guide".data).valid :=
  c8_dev_validity_from_description
    "docs(S3CSI-123): update installation guide".data "docs: update installation guide".data
    "docs(S3CSI-123): update installation guide".data "docs: update installation guide".data
    "docs".data "docs".data "S3CSI-123".data [] "update installation guide".data
    (by decide) (by decide) (by decide) (by decide) (by decide) (by decide)

/-- C10: a subject line with an empty scope (a literal open-close
parenthesis pair after the type) or an empty description (nothing after the
colon-space) fails the grammar itself, and validation returns exactly the
single format error with no warnings. -/
theorem c10_empty_scope_or_description_rejected
    (m subj tyW sc rest : List Char)
    (hfk : firstKept m = some subj)
    (hne : tyW ≠ [])
    (hword : tyW.all isWordChar = true)
    (hshape : subj = tyW ++ '(' :: ')' :: rest ∨
      subj = tyW ++ [':', ' '] ∨
      (subj = tyW ++ '(' :: (sc ++ [')', ':', ' ']) ∧
        sc.all (fun c => !(c == ')')) = true)) :
    matchCommitPattern subj = none ∧
    validate_commit_message m = ⟨false, [invalidFormatError subj], []⟩ := by
  have hw : ∀ a ∈ tyW, isWordChar a := fun a ha => List.all_eq_true.mp hword a ha
  have hie : tyW.isEmpty = false := by simp [hne]
  have hmn : matchCommitPattern subj = none := by
    rcases hshape with h | h | ⟨h, hsc⟩
    · subst h
      unfold matchCommitPattern
      rw [List.takeWhile_append_of_pos hw, List.dropWhile_append_of_pos hw]
      have ht : List.takeWhile isWordChar ('(' :: ')' :: rest) = [] := rfl
      have hd : List.dropWhile isWordChar ('(' :: ')' :: rest) = '(' :: ')' :: rest := rfl
      rw [ht, hd, List.append_nil]
      simp only [hie, Bool.false_eq_true, if_false]
      split
      · simp
      · rfl
    · subst h
      unfold matchCommitPattern
      rw [List.takeWhile_append_of_pos hw, List.dropWhile_append_of_pos hw]
      have ht : List.takeWhile isWordChar [':', ' '] = [] := rfl
      have hd : List.dropWhile isWordChar [':', ' '] = [':', ' '] := rfl
      rw [ht, hd, List.append_nil]
      simp only [hie, Bool.false_eq_true, if_false]
      rfl
    · subst h
      have hscw : ∀ a ∈ sc, (fun c => !(c == ')')) a := fun a ha => List.all_eq_true.mp hsc a ha
      unfold matchCommitPattern
      rw [List.takeWhile_append_of_pos hw, List.dropWhile_append_of_pos hw]
      have ht : List.takeWhile isWordChar ('(' :: (sc ++ [')', ':', ' '])) = [] := rfl
      have hd : List.dropWhile isWordChar ('(' :: (sc ++ [')', ':', ' '])) =
        '(' :: (sc ++ [')', ':', ' ']) := rfl
      rw [ht, hd, List.append_nil]
      simp only [hie, Bool.false_eq_true, if_false]
      rw [List.takeWhile_append_of_pos hscw, List.dropWhile_append_of_pos hscw]
      have ht2 : List.takeWhile (fun c => !(c == ')')) [')', ':', ' '] = [] := rfl
      have hd2 : List.dropWhile (fun c => !(c == ')')) [')', ':', ' '] = [')', ':', ' '] := rfl
      rw [ht2, hd2, List.append_nil]
      cases hsc0 : sc.isEmpty <;> simp [hsc0]
  exact ⟨hmn, validate_format_fail m subj hfk hmn⟩

/-- C10 witness: the empty-scope subject gets exactly the format error. -/
theorem c10_witness :
    matchCommitPattern "fix(): resolve timeout".data = none ∧
    validate_commit_message "fix(): resolve timeout".data =
      ⟨false, [invalidFormatError "fix(): resolve timeout".data], []⟩ :=
  c10_empty_scope_or_description_rejected "fix(): resolve timeout".data
    "fix(): resolve timeout".data "fix".data ['x'] ": resolve timeout".data
    (by decide) (by decide) (by decide) (Or.inl (by decide))
